import Mathlib

/-!
Verification of a chat backend consisting of two Express variants:
`index.js` and a serverless variant (`part_000`).  The persistent state
(MongoDB collections `Chat` and `UserChats`) is modelled as lists of
records; each HTTP handler is embedded as a pure function from the
database state and the request data to a response together with the new
database state.  The PUT handlers additionally report the trace of
database operations they issue (with each operation's selector), so that
statements about *how* the mutation is addressed can be made.
-/

/-- One element of a history entry's `parts` array: `{text: ...}`.
The text is optional because the `index.js` PUT handler can build a part
from an absent `answer` field. -/
structure MsgPart where
  text : Option String
deriving Repr, DecidableEq

/-- One entry of a chat's `history`: `{role, parts, img?}`. -/
structure HistoryEntry where
  role : String
  parts : List MsgPart
  img : Option String
deriving Repr, DecidableEq

/-- A document of the `Chat` collection: `{_id, userId, history}`. -/
structure Chat where
  id : String
  userId : String
  history : List HistoryEntry
deriving Repr, DecidableEq

/-- One element of a `UserChats` document's `chats` array:
`{_id: <chat id>, title}`. -/
structure ChatSummary where
  chatId : String
  title : String
deriving Repr, DecidableEq

/-- A document of the `UserChats` collection: `{userId, chats}`. -/
structure UserChats where
  userId : String
  chats : List ChatSummary
deriving Repr, DecidableEq

/-- The persistent state: the two MongoDB collections, in insertion
order (Mongo scans documents in that order for `findOne`/`updateOne`). -/
structure Db where
  chats : List Chat
  userChats : List UserChats
deriving Repr, DecidableEq

/-- JavaScript truthiness of an optional string field of `req.body`:
`undefined` and the empty string are falsy. -/
def truthy : Option String → Bool
  | none => false
  | some s => !s.isEmpty

/-- A MongoDB selector as used by this code: either `{_id}` alone or
the pair `{_id, userId}`. -/
inductive Selector where
  | byId (id : String)
  | byIdAndUser (id : String) (userId : String)
deriving Repr, DecidableEq

/-- A database operation issued by a handler, with its selector. -/
inductive DbOp where
  | findOneChat (sel : Selector)
  | updateChat (sel : Selector)
deriving Repr, DecidableEq

/-- The JSON body of a response, one constructor per body shape the
handlers produce. -/
inductive Body where
  | errorMsg (e : String)
  | chatIdBody (id : String)
  | chatBody (c : Chat)
  | nullBody
  | chatsBody (cs : List ChatSummary)
  | chatsWrapped (cs : List ChatSummary)
  | messageBody (m : String)
  | statusOk
  | uploadCreds
  | notFoundFallback
deriving Repr, DecidableEq

/-- Result of a handler: HTTP status, JSON body, resulting database. -/
structure HResult where
  status : Nat
  body : Body
  db : Db
deriving Repr, DecidableEq

/-- Result of a PUT handler: the response plus the trace of chat-
collection operations it issued. -/
structure PutResult where
  res : HResult
  ops : List DbOp
deriving Repr, DecidableEq

/-- `updateFirst p f l` rewrites the first element of `l` satisfying `p`
with `f` (MongoDB `updateOne` / `findByIdAndUpdate` touch only the first
matching document) and leaves the rest unchanged. -/
def updateFirst {α : Type} (p : α → Bool) (f : α → α) : List α → List α
  | [] => []
  | x :: xs => if p x then f x :: xs else x :: updateFirst p f xs

/-- `Chat.findOne({_id: id, userId})`: first chat matching both fields. -/
def Db.chatFindOne (db : Db) (id userId : String) : Option Chat :=
  db.chats.find? (fun c => c.id == id && c.userId == userId)

/-- `Chat.updateOne({_id: id, userId}, {$push: {history: {$each: items}}})`:
pushes `items` onto the first chat matching the pair, returning the new
state and the `modifiedCount` (a `$push` always modifies its target, so
the count is 1 exactly when a document matched). -/
def Db.chatUpdateOneByIdAndUser (db : Db) (id userId : String)
    (items : List HistoryEntry) : Db × Nat :=
  match db.chats.find? (fun c => c.id == id && c.userId == userId) with
  | none => (db, 0)
  | some _ =>
      ({ db with
          chats := updateFirst (fun c => c.id == id && c.userId == userId)
            (fun c => { c with history := c.history ++ items }) db.chats }, 1)

/-- `Chat.findByIdAndUpdate(id, {$push: {history: {$each: items}}}, {new:true})`:
pushes `items` onto the first chat whose `_id` matches (ownership NOT in
the selector) and returns the updated document. -/
def Db.chatPushById (db : Db) (id : String) (items : List HistoryEntry) :
    Db × Option Chat :=
  let db' := { db with
    chats := updateFirst (fun c => c.id == id)
      (fun c => { c with history := c.history ++ items }) db.chats }
  (db', db'.chats.find? (fun c => c.id == id))

/-- The `newItems` batch built by both PUT handlers:
zero or one user-role entry (only if `question` is truthy, carrying
`img` only if `img` is truthy) followed by exactly one model-role entry
containing `answer`. -/
def newItems (question answer img : Option String) : List HistoryEntry :=
  (if truthy question then
      [{ role := "user", parts := [{ text := question }],
         img := if truthy img then img else none }]
    else []) ++
  [{ role := "model", parts := [{ text := answer }], img := none }]

namespace IndexJs

/-- `POST /api/chats` of `index.js`: validates `text`, saves a new chat
with a single user entry, then seeds or extends the caller's `UserChats`
document with a `{_id, title: text.substring(0,40)}` summary. -/
def postChats (db : Db) (newId : String) (userId : String)
    (text : Option String) : HResult :=
  if !truthy text then
    { status := 400, body := .errorMsg "Text is required", db := db }
  else
    let t := text.getD ""
    let savedChat : Chat :=
      { id := newId, userId := userId,
        history := [{ role := "user", parts := [{ text := some t }], img := none }] }
    let db1 := { db with chats := db.chats ++ [savedChat] }
    let found := db1.userChats.filter (fun u => u.userId == userId)
    if found.isEmpty then
      let newUserChats : UserChats :=
        { userId := userId, chats := [{ chatId := newId, title := t.take 40 }] }
      { status := 201, body := .chatIdBody newId,
        db := { db1 with userChats := db1.userChats ++ [newUserChats] } }
    else
      { status := 201, body := .chatIdBody newId,
        db := { db1 with
          userChats := updateFirst (fun u => u.userId == userId)
            (fun u => { u with
              chats := u.chats ++ [{ chatId := newId, title := t.take 40 }] })
            db1.userChats } }

/-- `GET /api/userchats` of `index.js`: `UserChats.find({userId})`; an
empty result yields `200 {chats: []}`, otherwise `200` with the first
document's `chats`. -/
def getUserChats (db : Db) (userId : String) : HResult :=
  let found := db.userChats.filter (fun u => u.userId == userId)
  match found with
  | [] => { status := 200, body := .chatsWrapped [], db := db }
  | u :: _ => { status := 200, body := .chatsWrapped u.chats, db := db }

/-- `GET /api/chats/:id` of `index.js`: `Chat.findOne({_id, userId})`,
404 when nothing matches. -/
def getChat (db : Db) (userId : String) (chatId : String) : HResult :=
  match db.chatFindOne chatId userId with
  | none => { status := 404, body := .errorMsg "Chat not found", db := db }
  | some c => { status := 200, body := .chatBody c, db := db }

/-- `PUT /api/chats/:id` of `index.js`: builds `newItems` (no validation
of `answer`), reads the chat with `Chat.findOne({_id, userId})`, and on
success pushes the batch with `Chat.findByIdAndUpdate(id, ...)` —
addressed by `_id` alone. -/
def putChat (db : Db) (userId : String) (chatId : String)
    (question answer img : Option String) : PutResult :=
  let items := newItems question answer img
  match db.chatFindOne chatId userId with
  | none =>
      { res := { status := 404, body := .errorMsg "Chat not found", db := db },
        ops := [.findOneChat (.byIdAndUser chatId userId)] }
  | some _ =>
      let (db', updated) := db.chatPushById chatId items
      { res := { status := 200,
                 body := match updated with
                   | some u => .chatBody u
                   | none => .nullBody,
                 db := db' },
        ops := [.findOneChat (.byIdAndUser chatId userId),
                .updateChat (.byId chatId)] }

/-- `GET /api/healthcheck` of `index.js`. -/
def healthcheck (db : Db) : HResult :=
  { status := 200, body := .statusOk, db := db }

/-- `app.all("*")` fallback of `index.js`. -/
def fallback (db : Db) : HResult :=
  { status := 404, body := .notFoundFallback, db := db }

/-- A request as the `index.js` app sees it: method, path split into
segments, the authenticated user (none when the Clerk middleware
rejects), and the body fields the handlers destructure. -/
structure Req where
  method : String
  path : List String
  auth : Option String
  text : Option String
  question : Option String
  answer : Option String
  img : Option String
deriving Repr, DecidableEq

/-- Whether `index.js` defines a route for this method and path. -/
def routeMatches (m : String) (p : List String) : Bool :=
  match m, p with
  | "GET", ["api", "healthcheck"] => true
  | "GET", ["api", "upload"] => true
  | "POST", ["api", "chats"] => true
  | "GET", ["api", "userchats"] => true
  | "GET", ["api", "chats", _] => true
  | "PUT", ["api", "chats", _] => true
  | _, _ => false

/-- The `index.js` app: route dispatch in declaration order; routes
behind `ClerkExpressRequireAuth()` answer 401 (via the error middleware)
when the request is unauthenticated; any request matching no route falls
through to `app.all("*")`. -/
def handle (db : Db) (newId : String) (r : Req) : HResult :=
  match r.method, r.path with
  | "GET", ["api", "healthcheck"] => healthcheck db
  | "GET", ["api", "upload"] => { status := 200, body := .uploadCreds, db := db }
  | "POST", ["api", "chats"] =>
      match r.auth with
      | none => { status := 401, body := .errorMsg "Unauthenticated", db := db }
      | some uid => postChats db newId uid r.text
  | "GET", ["api", "userchats"] =>
      match r.auth with
      | none => { status := 401, body := .errorMsg "Unauthenticated", db := db }
      | some uid => getUserChats db uid
  | "GET", ["api", "chats", cid] =>
      match r.auth with
      | none => { status := 401, body := .errorMsg "Unauthenticated", db := db }
      | some uid => getChat db uid cid
  | "PUT", ["api", "chats", cid] =>
      match r.auth with
      | none => { status := 401, body := .errorMsg "Unauthenticated", db := db }
      | some uid => (putChat db uid cid r.question r.answer r.img).res
  | _, _ => fallback db

end IndexJs

namespace Serverless

/-- `POST /api/chats` of the serverless variant (`part_000`): same
validation and chat creation as `index.js`, but the index lookup is
`UserChats.findOne({userId})` and an existing document is extended with
`userChats.chats.push(...); userChats.save()`. -/
def postChats (db : Db) (newId : String) (userId : String)
    (text : Option String) : HResult :=
  if !truthy text then
    { status := 400, body := .errorMsg "Text is required", db := db }
  else
    let t := text.getD ""
    let savedChat : Chat :=
      { id := newId, userId := userId,
        history := [{ role := "user", parts := [{ text := some t }], img := none }] }
    let db1 := { db with chats := db.chats ++ [savedChat] }
    match db1.userChats.find? (fun u => u.userId == userId) with
    | none =>
        let newUserChats : UserChats :=
          { userId := userId, chats := [{ chatId := newId, title := t.take 40 }] }
        { status := 201, body := .chatIdBody newId,
          db := { db1 with userChats := db1.userChats ++ [newUserChats] } }
    | some _ =>
        { status := 201, body := .chatIdBody newId,
          db := { db1 with
            userChats := updateFirst (fun u => u.userId == userId)
              (fun u => { u with
                chats := u.chats ++ [{ chatId := newId, title := t.take 40 }] })
              db1.userChats } }

/-- `GET /api/userchats` of the serverless variant: 404 when the user
has no `UserChats` document, otherwise `200` with the bare `chats`
array. -/
def getUserChats (db : Db) (userId : String) : HResult :=
  match db.userChats.find? (fun u => u.userId == userId) with
  | none => { status := 404, body := .errorMsg "No chats found", db := db }
  | some u => { status := 200, body := .chatsBody u.chats, db := db }

/-- `GET /api/chats/:id` of the serverless variant: identical logic to
`index.js`. -/
def getChat (db : Db) (userId : String) (chatId : String) : HResult :=
  match db.chatFindOne chatId userId with
  | none => { status := 404, body := .errorMsg "Chat not found", db := db }
  | some c => { status := 200, body := .chatBody c, db := db }

/-- `PUT /api/chats/:id` of the serverless variant: 400 when `answer` is
falsy, otherwise a single `Chat.updateOne({_id, userId}, {$push: ...})`;
404 when `modifiedCount === 0`. -/
def putChat (db : Db) (userId : String) (chatId : String)
    (question answer img : Option String) : PutResult :=
  if !truthy answer then
    { res := { status := 400, body := .errorMsg "Answer is required", db := db },
      ops := [] }
  else
    let items := newItems question answer img
    let (db', modifiedCount) := db.chatUpdateOneByIdAndUser chatId userId items
    if modifiedCount == 0 then
      { res := { status := 404,
                 body := .errorMsg "Chat not found or not modified", db := db' },
        ops := [.updateChat (.byIdAndUser chatId userId)] }
    else
      { res := { status := 200,
                 body := .messageBody "Chat updated successfully", db := db' },
        ops := [.updateChat (.byIdAndUser chatId userId)] }

end Serverless

/-- The body fields of one append request (`PUT /api/chats/:id`). -/
structure AppendBody where
  question : Option String
  answer : Option String
  img : Option String
deriving Repr, DecidableEq

/-- Run a sequence of `index.js` append requests against the same chat,
threading the database state. -/
def IndexJs.applyAppends (db : Db) (userId chatId : String) :
    List AppendBody → Db
  | [] => db
  | b :: rest =>
      IndexJs.applyAppends
        (IndexJs.putChat db userId chatId b.question b.answer b.img).res.db
        userId chatId rest

/-- Run a sequence of serverless-variant append requests against the
same chat, threading the database state. -/
def Serverless.applyAppends (db : Db) (userId chatId : String) :
    List AppendBody → Db
  | [] => db
  | b :: rest =>
      Serverless.applyAppends
        (Serverless.putChat db userId chatId b.question b.answer b.img).res.db
        userId chatId rest

/-! ## Concrete sample state used by witnesses and counterexamples -/

/-- The initial history entry of the sample chat. -/
def sampleEntry : HistoryEntry :=
  { role := "user", parts := [{ text := some "hello" }], img := none }

/-- A sample database: one chat `c1` owned by `u1` with one history
entry, and the matching `UserChats` index document for `u1`. -/
def sampleDb : Db :=
  { chats := [{ id := "c1", userId := "u1", history := [sampleEntry] }],
    userChats := [{ userId := "u1", chats := [{ chatId := "c1", title := "hello" }] }] }


/-! ## Helper lemmas about list primitives -/

/-- The first element kept by `filter` is the element `find?` returns. -/
theorem head?_filter_eq_find? {α : Type} (p : α → Bool) (l : List α) :
    (l.filter p).head? = l.find? p := by
  induction l with
  | nil => rfl
  | cons x xs ih =>
    by_cases hx : p x
    · simp [List.filter_cons, hx, List.find?_cons_of_pos _ hx]
    · simp only [List.filter_cons, hx]
      rw [List.find?_cons_of_neg _ (by simp [hx])]
      exact ih

/-- `find?` on a list split around a first match. -/
theorem find?_append_cons {α : Type} (p : α → Bool) (pre : List α) (c : α)
    (post : List α) (hpre : ∀ x ∈ pre, p x = false) (hc : p c = true) :
    (pre ++ c :: post).find? p = some c := by
  induction pre with
  | nil => simpa using List.find?_cons_of_pos _ hc
  | cons x xs ih =>
    have hx : p x = false := hpre x (by simp)
    rw [List.cons_append, List.find?_cons_of_neg _ (by simp [hx])]
    exact ih fun y hy => hpre y (by simp [hy])

/-- `updateFirst` on a list split around a first match rewrites exactly
that element. -/
theorem updateFirst_append_cons {α : Type} (p : α → Bool) (f : α → α)
    (pre : List α) (c : α) (post : List α)
    (hpre : ∀ x ∈ pre, p x = false) (hc : p c = true) :
    updateFirst p f (pre ++ c :: post) = pre ++ f c :: post := by
  induction pre with
  | nil => simp [updateFirst, hc]
  | cons x xs ih =>
    have hx : p x = false := hpre x (by simp)
    simp only [List.cons_append, updateFirst, hx, Bool.false_eq_true, if_false,
      List.cons.injEq, true_and]
    exact ih fun y hy => hpre y (by simp [hy])

/-- A successful `find?` splits the list around the found element, with
every earlier element failing the predicate. -/
theorem find?_eq_some_split {α : Type} {p : α → Bool} {l : List α} {c : α}
    (h : l.find? p = some c) :
    ∃ pre post, l = pre ++ c :: post ∧ ∀ x ∈ pre, p x = false := by
  induction l with
  | nil => simp [List.find?] at h
  | cons x xs ih =>
    by_cases hx : p x
    · rw [List.find?_cons_of_pos _ hx] at h
      obtain rfl : x = c := by simpa using h
      exact ⟨[], xs, rfl, by simp⟩
    · rw [List.find?_cons_of_neg _ (by simp [hx])] at h
      obtain ⟨pre, post, rfl, hpre⟩ := ih h
      refine ⟨x :: pre, post, rfl, ?_⟩
      intro y hy
      rcases List.mem_cons.mp hy with rfl | hy
      · simpa using hx
      · exact hpre y hy

/-- Updating the first match and then looking it up with the same
predicate finds the rewritten element, provided the rewrite preserves
the predicate. -/
theorem find?_updateFirst {α : Type} {p : α → Bool} {f : α → α} {l : List α}
    {u : α} (h : l.find? p = some u) (hf : p (f u) = true) :
    (updateFirst p f l).find? p = some (f u) := by
  obtain ⟨pre, post, rfl, hpre⟩ := find?_eq_some_split h
  have hu : p u = true := List.find?_some h
  rw [updateFirst_append_cons p f pre u post hpre hu]
  exact find?_append_cons p pre (f u) post hpre hf

/-! ## Claim theorems -/

/-- C1: fetching a single chat returns the full record only when both
the id and the owner match the requester, and fetching a chat owned by
`u` as a different user `v` fails with 404 and returns no chat data, in
both variants, leaving the database unchanged. -/
theorem c1_get_chat_ownership (db : Db) (u v cid : String)
    (hOwn : ∀ c ∈ db.chats, c.id = cid → c.userId = u) (hne : u ≠ v) :
    (IndexJs.getChat db v cid =
        { status := 404, body := .errorMsg "Chat not found", db := db } ∧
      Serverless.getChat db v cid =
        { status := 404, body := .errorMsg "Chat not found", db := db }) ∧
    (∀ w c, (IndexJs.getChat db w cid).body = .chatBody c →
        c.id = cid ∧ c.userId = w) ∧
    (∀ w c, (Serverless.getChat db w cid).body = .chatBody c →
        c.id = cid ∧ c.userId = w) := by
  have hnone : db.chatFindOne cid v = none := by
    unfold Db.chatFindOne
    rw [List.find?_eq_none]
    intro x hx
    simp only [Bool.and_eq_true, beq_iff_eq, not_and]
    intro hid huser
    exact hne ((hOwn x hx hid).symm.trans huser)
  have honly : ∀ (g : Db → String → String → HResult),
      (∀ db' uid' cid', g db' uid' cid' =
        match db'.chatFindOne cid' uid' with
        | none => { status := 404, body := .errorMsg "Chat not found", db := db' }
        | some c => { status := 200, body := .chatBody c, db := db' }) →
      ∀ w c, (g db w cid).body = .chatBody c → c.id = cid ∧ c.userId = w := by
    intro g hg w c hbody
    rw [hg] at hbody
    cases hfind : db.chatFindOne cid w with
    | none => rw [hfind] at hbody; simp at hbody
    | some c' =>
      rw [hfind] at hbody
      simp only at hbody
      obtain rfl : c' = c := by simpa using hbody
      have := List.find?_some hfind
      simp only [Bool.and_eq_true, beq_iff_eq] at this
      exact this
  refine ⟨⟨?_, ?_⟩, ?_, ?_⟩
  · simp [IndexJs.getChat, hnone]
  · simp [Serverless.getChat, hnone]
  · exact honly IndexJs.getChat (fun _ _ _ => rfl)
  · exact honly Serverless.getChat (fun _ _ _ => rfl)

/-- C1 witness: on the sample database the chat `c1` is owned by `u1`,
and user `u2` gets a 404 and no data. -/
theorem c1_get_chat_ownership_witness :
    (IndexJs.getChat sampleDb "u2" "c1" =
        { status := 404, body := .errorMsg "Chat not found", db := sampleDb } ∧
      Serverless.getChat sampleDb "u2" "c1" =
        { status := 404, body := .errorMsg "Chat not found", db := sampleDb }) ∧
    (∀ w c, (IndexJs.getChat sampleDb w "c1").body = .chatBody c →
        c.id = "c1" ∧ c.userId = w) ∧
    (∀ w c, (Serverless.getChat sampleDb w "c1").body = .chatBody c →
        c.id = "c1" ∧ c.userId = w) :=
  c1_get_chat_ownership sampleDb "u1" "u2" "c1" (by decide) (by decide)

/-- C2 counterexample: in the `index.js` variant an append request with
no `answer` field is NOT rejected with 400 — it succeeds with 200 and an
entry is appended to the chat's history (the sample chat grows from 1 to
2 entries). -/
theorem c2_counterexample :
    (IndexJs.putChat sampleDb "u1" "c1" none none none).res.status = 200 ∧
    (IndexJs.putChat sampleDb "u1" "c1" none none none).res.status ≠ 400 ∧
    ((IndexJs.putChat sampleDb "u1" "c1" none none none).res.db.chats.map
        (fun c => c.history.length)) = [2] := by decide

/-- C2 (amended): in the serverless variant (`part_000`) an append
request whose `answer` field is absent fails with 400 and leaves the
database (hence every chat's history) unmodified, issuing no database
operation; the `index.js` variant performs no such validation. -/
theorem c2_append_answer_validation (db : Db) (uid cid : String)
    (q i : Option String) :
    Serverless.putChat db uid cid q none i =
      { res := { status := 400, body := .errorMsg "Answer is required", db := db },
        ops := [] } := by
  simp [Serverless.putChat, truthy]

/-- C4: with `answer` present, the constructed batch is zero or one
user-role entry — present exactly when `question` is truthy, carrying
`img` exactly when `img` is truthy — followed by exactly one model-role
entry whose text is `answer`. -/
theorem c4_new_items_shape (q a i : Option String) (_ha : truthy a = true) :
    (truthy q = false →
      newItems q a i = [{ role := "model", parts := [{ text := a }], img := none }]) ∧
    (truthy q = true →
      ∃ u, newItems q a i =
          [u, { role := "model", parts := [{ text := a }], img := none }] ∧
        u.role = "user" ∧ u.parts = [{ text := q }] ∧
        (truthy i = true → u.img = i) ∧ (truthy i = false → u.img = none)) := by
  refine ⟨fun hq => by simp [newItems, hq], fun hq => ?_⟩
  refine ⟨{ role := "user", parts := [{ text := q }],
            img := if truthy i then i else none },
          by simp [newItems, hq], rfl, rfl, ?_, ?_⟩
  · intro hi; simp [hi]
  · intro hi; simp [hi]

/-- C4 witness: instantiation at a concrete question/answer/image. -/
theorem c4_new_items_shape_witness :
    (truthy (some "Q") = false →
      newItems (some "Q") (some "A") (some "I") =
        [{ role := "model", parts := [{ text := some "A" }], img := none }]) ∧
    (truthy (some "Q") = true →
      ∃ u, newItems (some "Q") (some "A") (some "I") =
          [u, { role := "model", parts := [{ text := some "A" }], img := none }] ∧
        u.role = "user" ∧ u.parts = [{ text := some "Q" }] ∧
        (truthy (some "I") = true → u.img = some "I") ∧
        (truthy (some "I") = false → u.img = none)) :=
  c4_new_items_shape (some "Q") (some "A") (some "I") (by decide)

/-- C7: a create-chat request whose `text` is absent or empty yields 400
and persists nothing, in both variants. -/
theorem c7_create_chat_validation (db : Db) (newId uid : String)
    (t : Option String) (ht : truthy t = false) :
    IndexJs.postChats db newId uid t =
      { status := 400, body := .errorMsg "Text is required", db := db } ∧
    Serverless.postChats db newId uid t =
      { status := 400, body := .errorMsg "Text is required", db := db } := by
  constructor
  · simp [IndexJs.postChats, ht]
  · simp [Serverless.postChats, ht]

/-- C7 witness: a request with absent `text` on the sample database. -/
theorem c7_create_chat_validation_witness :
    truthy none = false ∧
    (IndexJs.postChats sampleDb "c9" "u1" none =
        { status := 400, body := .errorMsg "Text is required", db := sampleDb } ∧
      Serverless.postChats sampleDb "c9" "u1" none =
        { status := 400, body := .errorMsg "Text is required", db := sampleDb }) :=
  ⟨by decide, c7_create_chat_validation sampleDb "c9" "u1" none (by decide)⟩

/-- C8: listing a user's chats is read-only and never errors: with an
index document present both variants return its `chats` sequence in
index order with 200; with none, `index.js` returns an empty sequence
and the serverless variant its documented 404. -/
theorem c8_list_user_chats (db : Db) (uid : String) :
    (IndexJs.getUserChats db uid).db = db ∧
    (Serverless.getUserChats db uid).db = db ∧
    (match db.userChats.find? (fun u => u.userId == uid) with
     | none =>
        IndexJs.getUserChats db uid =
          { status := 200, body := .chatsWrapped [], db := db } ∧
        Serverless.getUserChats db uid =
          { status := 404, body := .errorMsg "No chats found", db := db }
     | some u =>
        IndexJs.getUserChats db uid =
          { status := 200, body := .chatsWrapped u.chats, db := db } ∧
        Serverless.getUserChats db uid =
          { status := 200, body := .chatsBody u.chats, db := db }) := by
  have hhead := head?_filter_eq_find? (fun u => u.userId == uid) db.userChats
  cases hfind : db.userChats.find? (fun u => u.userId == uid) with
  | none =>
    rw [hfind] at hhead
    have hfilter : db.userChats.filter (fun u => u.userId == uid) = [] := by
      cases hfilter : db.userChats.filter (fun u => u.userId == uid) with
      | nil => rfl
      | cons v vs => rw [hfilter] at hhead; simp at hhead
    refine ⟨?_, ?_, ?_⟩
    · simp [IndexJs.getUserChats, hfilter]
    · simp [Serverless.getUserChats, hfind]
    · simp only
      exact ⟨by simp [IndexJs.getUserChats, hfilter],
             by simp [Serverless.getUserChats, hfind]⟩
  | some u =>
    rw [hfind] at hhead
    obtain ⟨vs, hfilter⟩ : ∃ vs, db.userChats.filter (fun u => u.userId == uid) = u :: vs := by
      cases hfilter : db.userChats.filter (fun u => u.userId == uid) with
      | nil => rw [hfilter] at hhead; simp at hhead
      | cons v vs =>
        rw [hfilter] at hhead
        obtain rfl : v = u := by simpa using hhead
        exact ⟨vs, rfl⟩
    refine ⟨?_, ?_, ?_⟩
    · simp [IndexJs.getUserChats, hfilter]
    · simp [Serverless.getUserChats, hfind]
    · simp only
      exact ⟨by simp [IndexJs.getUserChats, hfilter],
             by simp [Serverless.getUserChats, hfind]⟩

/-- C3 counterexample: on the sample database, the `index.js` append is
NOT a single update addressed by the `(chatId, ownerId)` pair — its
operation trace is a `findOne` on the pair followed by an update
addressed by the chat id alone. -/
theorem c3_counterexample :
    (Serverless.putChat sampleDb "u1" "c1" none (some "A") none).ops =
      [DbOp.updateChat (Selector.byIdAndUser "c1" "u1")] ∧
    (IndexJs.putChat sampleDb "u1" "c1" none (some "A") none).ops =
      [DbOp.findOneChat (Selector.byIdAndUser "c1" "u1"),
       DbOp.updateChat (Selector.byId "c1")] ∧
    (IndexJs.putChat sampleDb "u1" "c1" none (some "A") none).ops ≠
      [DbOp.updateChat (Selector.byIdAndUser "c1" "u1")] := by decide

/-- C3 (amended): in the serverless variant every append with `answer`
present issues exactly one update, addressed by the `(chatId, ownerId)`
pair, so ownership and mutation happen in one step; the `index.js`
variant instead checks ownership with a separate `findOne` on the pair
and then updates by chat id alone (a read-then-write on different
keys). -/
theorem c3_update_addressing (db : Db) (uid cid : String)
    (q a i : Option String) (ha : truthy a = true)
    (hex : (db.chatFindOne cid uid).isSome = true) :
    (Serverless.putChat db uid cid q a i).ops =
      [DbOp.updateChat (Selector.byIdAndUser cid uid)] ∧
    (IndexJs.putChat db uid cid q a i).ops =
      [DbOp.findOneChat (Selector.byIdAndUser cid uid),
       DbOp.updateChat (Selector.byId cid)] := by
  constructor
  · simp only [Serverless.putChat, ha, Bool.not_true, Bool.false_eq_true, if_false]
    unfold Db.chatUpdateOneByIdAndUser
    cases hfind : db.chats.find? (fun c => c.id == cid && c.userId == uid) with
    | none => simp
    | some c => simp
  · rw [Option.isSome_iff_exists] at hex
    obtain ⟨c, hc⟩ := hex
    simp [IndexJs.putChat, hc]

/-- C3 witness: instantiation on the sample database. -/
theorem c3_update_addressing_witness :
    (Serverless.putChat sampleDb "u1" "c1" (some "Q") (some "A") none).ops =
      [DbOp.updateChat (Selector.byIdAndUser "c1" "u1")] ∧
    (IndexJs.putChat sampleDb "u1" "c1" (some "Q") (some "A") none).ops =
      [DbOp.findOneChat (Selector.byIdAndUser "c1" "u1"),
       DbOp.updateChat (Selector.byId "c1")] :=
  c3_update_addressing sampleDb "u1" "c1" (some "Q") (some "A") none
    (by decide) (by decide)

/-- C5: an append (with `answer` present) to a chat id that does not
match any chat owned by the caller fails with 404 in both variants and
leaves the database — hence every chat's history — unmodified. -/
theorem c5_append_not_found (db : Db) (uid cid : String)
    (q a i : Option String) (ha : truthy a = true)
    (hnone : db.chatFindOne cid uid = none) :
    (Serverless.putChat db uid cid q a i).res =
      { status := 404, body := .errorMsg "Chat not found or not modified", db := db } ∧
    (IndexJs.putChat db uid cid q a i).res =
      { status := 404, body := .errorMsg "Chat not found", db := db } := by
  unfold Db.chatFindOne at hnone
  constructor
  · simp only [Serverless.putChat, ha, Bool.not_true, Bool.false_eq_true, if_false]
    unfold Db.chatUpdateOneByIdAndUser
    rw [hnone]
    simp
  · simp [IndexJs.putChat, Db.chatFindOne, hnone]

/-- C5 witness: user `u2` appending to `u1`'s chat on the sample
database gets 404 from both variants with the state unchanged. -/
theorem c5_append_not_found_witness :
    (Serverless.putChat sampleDb "u2" "c1" none (some "A") none).res =
      { status := 404, body := .errorMsg "Chat not found or not modified",
        db := sampleDb } ∧
    (IndexJs.putChat sampleDb "u2" "c1" none (some "A") none).res =
      { status := 404, body := .errorMsg "Chat not found", db := sampleDb } :=
  c5_append_not_found sampleDb "u2" "c1" none (some "A") none
    (by decide) (by decide)

/-- C10: in the `index.js` variant, `GET /api/healthcheck` answers 200
with `{status:"ok"}` for any request (authenticated or not) without
touching the database, and any request matching no defined route gets
the JSON 404 fallback, also without touching the database. -/
theorem c10_healthcheck_and_fallback (db : Db) (newId : String)
    (r : IndexJs.Req) :
    (r.method = "GET" → r.path = ["api", "healthcheck"] →
      IndexJs.handle db newId r = { status := 200, body := .statusOk, db := db }) ∧
    (IndexJs.routeMatches r.method r.path = false →
      IndexJs.handle db newId r =
        { status := 404, body := .notFoundFallback, db := db }) := by
  obtain ⟨m, p, au, tx, q, a, i⟩ := r
  constructor
  · intro hm hp
    simp only at hm hp
    subst hm; subst hp
    rfl
  · intro h
    simp only at h
    simp only [IndexJs.handle]
    split
    · exact absurd h (by simp [IndexJs.routeMatches])
    · exact absurd h (by simp [IndexJs.routeMatches])
    · exact absurd h (by simp [IndexJs.routeMatches])
    · exact absurd h (by simp [IndexJs.routeMatches])
    · exact absurd h (by simp [IndexJs.routeMatches])
    · exact absurd h (by simp [IndexJs.routeMatches])
    · rfl

/-- C10 witness: a healthcheck request and an undefined route (DELETE on
a chat) on the sample database. -/
theorem c10_healthcheck_and_fallback_witness :
    IndexJs.handle sampleDb "x"
        { method := "GET", path := ["api", "healthcheck"], auth := none,
          text := none, question := none, answer := none, img := none } =
      { status := 200, body := .statusOk, db := sampleDb } ∧
    IndexJs.handle sampleDb "x"
        { method := "DELETE", path := ["api", "chats", "c1"], auth := some "u1",
          text := none, question := none, answer := none, img := none } =
      { status := 404, body := .notFoundFallback, db := sampleDb } :=
  ⟨(c10_healthcheck_and_fallback sampleDb "x"
      { method := "GET", path := ["api", "healthcheck"], auth := none,
        text := none, question := none, answer := none, img := none }).1 rfl rfl,
   (c10_healthcheck_and_fallback sampleDb "x"
      { method := "DELETE", path := ["api", "chats", "c1"], auth := some "u1",
        text := none, question := none, answer := none, img := none }).2
     (by decide)⟩

/-- If `find?` finds nothing, `filter` keeps nothing. -/
theorem filter_eq_nil_of_find?_eq_none {α : Type} {p : α → Bool} {l : List α}
    (h : l.find? p = none) : l.filter p = [] := by
  have hhead := head?_filter_eq_find? p l
  rw [h] at hhead
  cases hfilter : l.filter p with
  | nil => rfl
  | cons v vs => rw [hfilter] at hhead; simp at hhead

/-- If `find?` finds `u`, `filter` keeps `u` first. -/
theorem filter_cons_of_find?_eq_some {α : Type} {p : α → Bool} {l : List α}
    {u : α} (h : l.find? p = some u) : ∃ vs, l.filter p = u :: vs := by
  have hhead := head?_filter_eq_find? p l
  rw [h] at hhead
  cases hfilter : l.filter p with
  | nil => rw [hfilter] at hhead; simp at hhead
  | cons v vs =>
    rw [hfilter] at hhead
    obtain rfl : v = u := by simpa using hhead
    exact ⟨vs, rfl⟩

/-- C6: creating a chat with non-empty `text` persists a chat whose
history is exactly one user entry with that text, returns 201 with the
new chat id, and the caller's index gains exactly one summary titled
with the first 40 characters of `text` — seeding a new index document
when none exists, extending the existing one otherwise — in both
variants. -/
theorem c6_create_chat (db : Db) (newId uid : String) (t : String)
    (ht : t ≠ "") :
    (IndexJs.postChats db newId uid (some t)).status = 201 ∧
    (IndexJs.postChats db newId uid (some t)).body = .chatIdBody newId ∧
    (Serverless.postChats db newId uid (some t)).status = 201 ∧
    (Serverless.postChats db newId uid (some t)).body = .chatIdBody newId ∧
    (IndexJs.postChats db newId uid (some t)).db.chats =
      db.chats ++
        [{ id := newId, userId := uid,
           history := [{ role := "user", parts := [{ text := some t }], img := none }] }] ∧
    (Serverless.postChats db newId uid (some t)).db.chats =
      db.chats ++
        [{ id := newId, userId := uid,
           history := [{ role := "user", parts := [{ text := some t }], img := none }] }] ∧
    (match db.userChats.find? (fun u => u.userId == uid) with
     | none =>
        (IndexJs.postChats db newId uid (some t)).db.userChats =
          db.userChats ++
            [{ userId := uid, chats := [{ chatId := newId, title := t.take 40 }] }] ∧
        (Serverless.postChats db newId uid (some t)).db.userChats =
          db.userChats ++
            [{ userId := uid, chats := [{ chatId := newId, title := t.take 40 }] }]
     | some u =>
        (IndexJs.postChats db newId uid (some t)).db.userChats.find?
            (fun x => x.userId == uid) =
          some { userId := uid,
                 chats := u.chats ++ [{ chatId := newId, title := t.take 40 }] } ∧
        (Serverless.postChats db newId uid (some t)).db.userChats.find?
            (fun x => x.userId == uid) =
          some { userId := uid,
                 chats := u.chats ++ [{ chatId := newId, title := t.take 40 }] }) := by
  have hemp : t.isEmpty = false := by
    cases h : t.isEmpty
    · rfl
    · exact absurd ((String.isEmpty_iff t).mp h) ht
  cases hfind : db.userChats.find? (fun u => u.userId == uid) with
  | none =>
    have hfilter : db.userChats.filter (fun u => u.userId == uid) = [] :=
      filter_eq_nil_of_find?_eq_none hfind
    refine ⟨?_, ?_, ?_, ?_, ?_, ?_, ?_⟩
    all_goals
      simp [IndexJs.postChats, Serverless.postChats, truthy, hemp, hfilter, hfind]
  | some u =>
    obtain ⟨vs, hfilter⟩ := filter_cons_of_find?_eq_some hfind
    have hne : (db.userChats.filter (fun x => x.userId == uid)).isEmpty = false := by
      rw [hfilter]; rfl
    have huid : u.userId = uid := by simpa using List.find?_some hfind
    have hupd :
        (updateFirst (fun x : UserChats => x.userId == uid)
            (fun x =>
              { x with chats := x.chats ++ [{ chatId := newId, title := t.take 40 }] })
            db.userChats).find? (fun x => x.userId == uid) =
          some { userId := uid,
                 chats := u.chats ++ [{ chatId := newId, title := t.take 40 }] } := by
      have h2 := find?_updateFirst (f := fun x : UserChats =>
          { x with chats := x.chats ++ [{ chatId := newId, title := t.take 40 }] })
        hfind (by simp [huid])
      rw [h2]
      cases u
      simp_all
    refine ⟨?_, ?_, ?_, ?_, ?_, ?_, ?_⟩
    all_goals
      simp [IndexJs.postChats, Serverless.postChats, truthy, hemp, hne, hfind, hupd]

/-- C6 witness: creating a chat as `u1`, who already has an index
document, on the sample database. -/
theorem c6_create_chat_witness :
    (IndexJs.postChats sampleDb "c2" "u1" (some "How are you?")).status = 201 ∧
    (IndexJs.postChats sampleDb "c2" "u1" (some "How are you?")).body =
      .chatIdBody "c2" ∧
    (Serverless.postChats sampleDb "c2" "u1" (some "How are you?")).status = 201 ∧
    (Serverless.postChats sampleDb "c2" "u1" (some "How are you?")).body =
      .chatIdBody "c2" ∧
    (IndexJs.postChats sampleDb "c2" "u1" (some "How are you?")).db.chats =
      sampleDb.chats ++
        [{ id := "c2", userId := "u1",
           history := [{ role := "user", parts := [{ text := some "How are you?" }],
                         img := none }] }] ∧
    (Serverless.postChats sampleDb "c2" "u1" (some "How are you?")).db.chats =
      sampleDb.chats ++
        [{ id := "c2", userId := "u1",
           history := [{ role := "user", parts := [{ text := some "How are you?" }],
                         img := none }] }] ∧
    (match sampleDb.userChats.find? (fun u => u.userId == "u1") with
     | none =>
        (IndexJs.postChats sampleDb "c2" "u1" (some "How are you?")).db.userChats =
          sampleDb.userChats ++
            [{ userId := "u1",
               chats := [{ chatId := "c2", title := String.take "How are you?" 40 }] }] ∧
        (Serverless.postChats sampleDb "c2" "u1" (some "How are you?")).db.userChats =
          sampleDb.userChats ++
            [{ userId := "u1",
               chats := [{ chatId := "c2", title := String.take "How are you?" 40 }] }]
     | some u =>
        (IndexJs.postChats sampleDb "c2" "u1" (some "How are you?")).db.userChats.find?
            (fun x => x.userId == "u1") =
          some { userId := "u1",
                 chats := u.chats ++
                   [{ chatId := "c2", title := String.take "How are you?" 40 }] } ∧
        (Serverless.postChats sampleDb "c2" "u1" (some "How are you?")).db.userChats.find?
            (fun x => x.userId == "u1") =
          some { userId := "u1",
                 chats := u.chats ++
                   [{ chatId := "c2", title := String.take "How are you?" 40 }] }) :=
  c6_create_chat sampleDb "c2" "u1" "How are you?" (by decide)

/-- One successful serverless append extends exactly the target chat's
history with the constructed batch, leaving all other chats alone. -/
theorem Serverless.srv_putChat_step (pre post : List Chat) (h : List HistoryEntry)
    (db : Db) (uid cid : String) (q a i : Option String)
    (hdb : db.chats = pre ++ { id := cid, userId := uid, history := h } :: post)
    (hpre : ∀ x ∈ pre, (x.id == cid) = false)
    (ha : truthy a = true) :
    (Serverless.putChat db uid cid q a i).res.db.chats =
      pre ++ { id := cid, userId := uid, history := h ++ newItems q a i } :: post := by
  have hpre' : ∀ x ∈ pre,
      ((fun c : Chat => c.id == cid && c.userId == uid) x) = false := by
    intro x hx
    simp [hpre x hx]
  have hfind : db.chats.find? (fun c => c.id == cid && c.userId == uid) =
      some { id := cid, userId := uid, history := h } := by
    rw [hdb]
    exact find?_append_cons _ pre _ post hpre' (by simp)
  have hupd : updateFirst (fun c : Chat => c.id == cid && c.userId == uid)
      (fun c => { c with history := c.history ++ newItems q a i }) db.chats =
      pre ++ { id := cid, userId := uid, history := h ++ newItems q a i } :: post := by
    rw [hdb]
    exact updateFirst_append_cons _ _ pre _ post hpre' (by simp)
  simp [Serverless.putChat, ha, Db.chatUpdateOneByIdAndUser, hfind, hupd]

/-- One successful `index.js` append extends exactly the target chat's
history with the constructed batch, leaving all other chats alone. -/
theorem IndexJs.idx_putChat_step (pre post : List Chat) (h : List HistoryEntry)
    (db : Db) (uid cid : String) (q a i : Option String)
    (hdb : db.chats = pre ++ { id := cid, userId := uid, history := h } :: post)
    (hpre : ∀ x ∈ pre, (x.id == cid) = false) :
    (IndexJs.putChat db uid cid q a i).res.db.chats =
      pre ++ { id := cid, userId := uid, history := h ++ newItems q a i } :: post := by
  have hpre' : ∀ x ∈ pre,
      ((fun c : Chat => c.id == cid && c.userId == uid) x) = false := by
    intro x hx
    simp [hpre x hx]
  have hfind : db.chatFindOne cid uid =
      some { id := cid, userId := uid, history := h } := by
    unfold Db.chatFindOne
    rw [hdb]
    exact find?_append_cons _ pre _ post hpre' (by simp)
  have hupd : updateFirst (fun c : Chat => c.id == cid)
      (fun c => { c with history := c.history ++ newItems q a i }) db.chats =
      pre ++ { id := cid, userId := uid, history := h ++ newItems q a i } :: post := by
    rw [hdb]
    exact updateFirst_append_cons _ _ pre _ post hpre (by simp)
  simp [IndexJs.putChat, Db.chatPushById, hfind, hupd]

/-- Running a sequence of serverless appends (all with `answer` present)
concatenates the constructed batches, in call order, onto the target
chat's history. -/
theorem Serverless.srv_applyAppends_spec (reqs : List AppendBody) :
    ∀ (db : Db) (uid cid : String) (pre post : List Chat)
      (h : List HistoryEntry),
    db.chats = pre ++ { id := cid, userId := uid, history := h } :: post →
    (∀ x ∈ pre, (x.id == cid) = false) →
    (∀ b ∈ reqs, truthy b.answer = true) →
    (Serverless.applyAppends db uid cid reqs).chats =
      pre ++ { id := cid, userId := uid,
               history := h ++
                 (reqs.map (fun b => newItems b.question b.answer b.img)).flatten }
        :: post := by
  induction reqs with
  | nil =>
    intro db uid cid pre post h hdb hpre _
    simpa [Serverless.applyAppends] using hdb
  | cons b rest ih =>
    intro db uid cid pre post h hdb hpre hans
    have hstep := Serverless.srv_putChat_step pre post h db uid cid
      b.question b.answer b.img hdb hpre (hans b (by simp))
    simp only [Serverless.applyAppends]
    rw [ih _ uid cid pre post _ hstep hpre (fun x hx => hans x (by simp [hx]))]
    simp [List.append_assoc]

/-- Running a sequence of `index.js` appends concatenates the
constructed batches, in call order, onto the target chat's history. -/
theorem IndexJs.idx_applyAppends_spec (reqs : List AppendBody) :
    ∀ (db : Db) (uid cid : String) (pre post : List Chat)
      (h : List HistoryEntry),
    db.chats = pre ++ { id := cid, userId := uid, history := h } :: post →
    (∀ x ∈ pre, (x.id == cid) = false) →
    (IndexJs.applyAppends db uid cid reqs).chats =
      pre ++ { id := cid, userId := uid,
               history := h ++
                 (reqs.map (fun b => newItems b.question b.answer b.img)).flatten }
        :: post := by
  induction reqs with
  | nil =>
    intro db uid cid pre post h hdb hpre
    simpa [IndexJs.applyAppends] using hdb
  | cons b rest ih =>
    intro db uid cid pre post h hdb hpre
    have hstep := IndexJs.idx_putChat_step pre post h db uid cid
      b.question b.answer b.img hdb hpre
    simp only [IndexJs.applyAppends]
    rw [ih _ uid cid pre post _ hstep hpre]
    simp [List.append_assoc]

/-- C9: a chat's history is append-only: a sequence of successful
appends (every `answer` present) to the chat with id `cid` owned by
`uid` yields, in both variants, a history equal to the initial history
followed by the constructed batches in call order — nothing removed or
reordered — whose length is the initial length plus the sum of the
batch sizes. -/
theorem c9_history_append_only (db : Db) (uid cid : String) (c0 : Chat)
    (reqs : List AppendBody)
    (hfind : db.chats.find? (fun c => c.id == cid) = some c0)
    (howner : c0.userId = uid)
    (hans : ∀ b ∈ reqs, truthy b.answer = true) :
    ((Serverless.applyAppends db uid cid reqs).chats.find?
        (fun c => c.id == cid) =
      some { c0 with history := c0.history ++
        (reqs.map (fun b => newItems b.question b.answer b.img)).flatten }) ∧
    ((IndexJs.applyAppends db uid cid reqs).chats.find?
        (fun c => c.id == cid) =
      some { c0 with history := c0.history ++
        (reqs.map (fun b => newItems b.question b.answer b.img)).flatten }) ∧
    (((Serverless.applyAppends db uid cid reqs).chats.find?
        (fun c => c.id == cid)).map (fun c => c.history.length) =
      some (c0.history.length +
        ((reqs.map (fun b => newItems b.question b.answer b.img)).map
          List.length).sum)) := by
  obtain ⟨pre, post, hdb, hpre⟩ := find?_eq_some_split hfind
  have hid : c0.id = cid := by simpa using List.find?_some hfind
  obtain ⟨cid', uid', h⟩ := c0
  simp only at hid howner
  subst hid
  subst howner
  have hS := Serverless.srv_applyAppends_spec reqs db uid' cid' pre post h hdb hpre hans
  have hI := IndexJs.idx_applyAppends_spec reqs db uid' cid' pre post h hdb hpre
  refine ⟨?_, ?_, ?_⟩
  · rw [hS]
    exact find?_append_cons _ pre _ post hpre (by simp)
  · rw [hI]
    exact find?_append_cons _ pre _ post hpre (by simp)
  · rw [hS, find?_append_cons _ pre _ post hpre (by simp)]
    simp [List.length_flatten, Function.comp]

/-- C9 witness: two appends (question+answer, then answer only) to the
sample chat. -/
theorem c9_history_append_only_witness :
    ((Serverless.applyAppends sampleDb "u1" "c1"
        [{ question := some "Q", answer := some "A", img := none },
         { question := none, answer := some "B", img := none }]).chats.find?
        (fun c => c.id == "c1") =
      some { id := "c1", userId := "u1", history := [sampleEntry] ++
        (([{ question := some "Q", answer := some "A", img := none },
           { question := none, answer := some "B", img := none }] :
            List AppendBody).map
          (fun b => newItems b.question b.answer b.img)).flatten }) ∧
    ((IndexJs.applyAppends sampleDb "u1" "c1"
        [{ question := some "Q", answer := some "A", img := none },
         { question := none, answer := some "B", img := none }]).chats.find?
        (fun c => c.id == "c1") =
      some { id := "c1", userId := "u1", history := [sampleEntry] ++
        (([{ question := some "Q", answer := some "A", img := none },
           { question := none, answer := some "B", img := none }] :
            List AppendBody).map
          (fun b => newItems b.question b.answer b.img)).flatten }) ∧
    (((Serverless.applyAppends sampleDb "u1" "c1"
        [{ question := some "Q", answer := some "A", img := none },
         { question := none, answer := some "B", img := none }]).chats.find?
        (fun c => c.id == "c1")).map (fun c => c.history.length) =
      some ((List.length [sampleEntry]) +
        ((([{ question := some "Q", answer := some "A", img := none },
            { question := none, answer := some "B", img := none }] :
             List AppendBody).map
           (fun b => newItems b.question b.answer b.img)).map
          List.length).sum)) :=
  c9_history_append_only sampleDb "u1" "c1"
    { id := "c1", userId := "u1", history := [sampleEntry] }
    [{ question := some "Q", answer := some "A", img := none },
     { question := none, answer := some "B", img := none }]
    (by decide) (by decide) (by decide)
